import Mathlib

/-!
Verification of the NGS ATRAC9 streaming module
(`src/vita3k/ngs/src/modules/atrac9.cpp`).

The C++ source is shallowly embedded below.  Machine `uint32_t`
arithmetic is modelled on `Nat` with explicit wrap-around (`% 2 ^ 32`)
wherever the source performs 32-bit operations that can overflow or
underflow.  External capabilities (the ATRAC9 decoder and the resampling
converter) are modelled as value parameters: the decoder's layout
queries as a record of constants, and the per-frame `send` outcomes as a
Boolean oracle.  The PCM backlog `data.extra_storage` (a byte vector
holding interleaved stereo float frames, 8 bytes per sample frame) is
modelled as a list of sample frames, each tagged `true` when it was
produced by the decode step and `false` when it is zero fill coming from
a `resize` or from granularity padding.
-/

namespace Atrac9

/-- Wrap-around 32-bit addition (C++ `uint32_t` addition). -/
def add32 (a b : Nat) : Nat := (a + b) % 2 ^ 32

/-- Wrap-around 32-bit subtraction (C++ `uint32_t` subtraction). -/
def sub32 (a b : Nat) : Nat := (a + (2 ^ 32 - b % 2 ^ 32)) % 2 ^ 32

/-- Wrap-around 32-bit multiplication (C++ `uint32_t` multiplication). -/
def mul32 (a b : Nat) : Nat := (a * b) % 2 ^ 32

/-- Result record of `get_buffer_parameter` (`SkipBufferInfo` in the source). -/
structure SkipBufferInfo where
  num_bytes : Nat
  is_super_packet : Nat
  start_byte_offset : Nat
  start_skip : Nat
  end_skip : Nat
deriving Repr, DecidableEq

/-- atrac9.cpp line 36: `(info & (0b1111 << 12)) >> 12`. -/
def sample_rate_index (info : Nat) : Nat := (info &&& (15 <<< 12)) >>> 12

/-- atrac9.cpp line 37: `(info & (0b111 << 9)) >> 9`. -/
def block_rate_index (info : Nat) : Nat := (info &&& (7 <<< 9)) >>> 9

/-- atrac9.cpp line 38: `((((info & 0xFF0000) >> 16) << 3) | ((info & (0b111 << 29)) >> 29)) + 1`. -/
def frame_bytes (info : Nat) : Nat :=
  ((((info &&& 0xFF0000) >>> 16) <<< 3) ||| ((info &&& (7 <<< 29)) >>> 29)) + 1

/-- atrac9.cpp line 39: `(info & (0b11 << 27)) >> 27`. -/
def superframe_index (info : Nat) : Nat := (info &&& (3 <<< 27)) >>> 27

/-- atrac9.cpp line 42: `1 << superframe_index`. -/
def frame_per_superframe (info : Nat) : Nat := 1 <<< superframe_index info

/-- atrac9.cpp line 43: `frame_bytes * frame_per_superframe` (uint32). -/
def bytes_per_superframe (info : Nat) : Nat :=
  mul32 (frame_bytes info) (frame_per_superframe info)

/-- atrac9.cpp lines 46-48: `sample_rate_index_to_frame_sample_power[]`. -/
def sample_rate_index_to_frame_sample_power : List Nat :=
  [6, 6, 7, 7, 7, 8, 8, 8, 6, 6, 7, 7, 7, 8, 8, 8]

/-- atrac9.cpp line 50: `1 << sample_rate_index_to_frame_sample_power[sample_rate_index]`. -/
def samples_per_frame (info : Nat) : Nat :=
  1 <<< sample_rate_index_to_frame_sample_power.getD (sample_rate_index info) 0

/-- atrac9.cpp line 51: `samples_per_frame * frame_per_superframe` (uint32). -/
def samples_per_superframe (info : Nat) : Nat :=
  mul32 (samples_per_frame info) (frame_per_superframe info)

/-- atrac9.cpp line 53: `start_sample / samples_per_superframe`. -/
def start_superframe (start_sample info : Nat) : Nat :=
  start_sample / samples_per_superframe info

/-- atrac9.cpp line 54:
`(start_sample + num_samples + samples_per_superframe - 1) / samples_per_superframe - start_superframe`,
every operation in `uint32_t` arithmetic. -/
def num_superframe (start_sample num_samples info : Nat) : Nat :=
  sub32 (sub32 (add32 (add32 start_sample num_samples) (samples_per_superframe info)) 1
      / samples_per_superframe info)
    (start_superframe start_sample info)

/-- atrac9.cpp lines 35-61: `get_buffer_parameter`. -/
def get_buffer_parameter (start_sample num_samples info : Nat) : SkipBufferInfo :=
  { num_bytes := mul32 (num_superframe start_sample num_samples info) (bytes_per_superframe info)
    is_super_packet := if frame_per_superframe info = 1 then 0 else 1
    start_byte_offset := mul32 (start_superframe start_sample info) (bytes_per_superframe info)
    start_skip := sub32 start_sample
      (mul32 (start_superframe start_sample info) (samples_per_superframe info))
    end_skip := sub32
      (mul32 (add32 (start_superframe start_sample info) (num_superframe start_sample num_samples info))
        (samples_per_superframe info))
      (add32 start_sample num_samples) }

/-! Specification-side restatement of the format parser, following the wording
of spec §4.1 (mathematical arithmetic, no 32-bit wrap): sampleRateIndex from
bits 12-15, blockRateIndex from bits 9-11, frameBytes from the byte at bits
16-23 (as the high part) combined with the 3 bits at 29-31 (as the low part)
plus 1, superframeExponent from bits 27-28, framesPerSuperframe = 2^exponent,
samplesPerFrame = 2^table[sampleRateIndex],
startSuperframe = startSample / samplesPerSuperframe and
numSuperframes = ceil((startSample+numSamples)/samplesPerSuperframe) − startSuperframe. -/

/-- Spec §4.1: sampleRateIndex, bits 12-15 of the format word. -/
def spec_sample_rate_index (info : Nat) : Nat := info / 2 ^ 12 % 2 ^ 4

/-- Spec §4.1: blockRateIndex, bits 9-11 of the format word. -/
def spec_block_rate_index (info : Nat) : Nat := info / 2 ^ 9 % 2 ^ 3

/-- Spec §4.1: frameBytes, byte at bits 16-23 combined with the 3 bits at 29-31, plus 1. -/
def spec_frame_bytes (info : Nat) : Nat :=
  (info / 2 ^ 16 % 2 ^ 8) * 8 + info / 2 ^ 29 % 2 ^ 3 + 1

/-- Spec §4.1: superframeExponent, bits 27-28 of the format word. -/
def spec_superframe_exponent (info : Nat) : Nat := info / 2 ^ 27 % 2 ^ 2

/-- Spec §4.1: framesPerSuperframe = 2^superframeExponent. -/
def spec_frames_per_superframe (info : Nat) : Nat := 2 ^ spec_superframe_exponent info

/-- Spec §4.1: samplesPerFrame = 2^table[sampleRateIndex]. -/
def spec_samples_per_frame (info : Nat) : Nat :=
  2 ^ sample_rate_index_to_frame_sample_power.getD (spec_sample_rate_index info) 0

/-- Spec §4.1: samplesPerSuperframe = samplesPerFrame × framesPerSuperframe. -/
def spec_samples_per_superframe (info : Nat) : Nat :=
  spec_samples_per_frame info * spec_frames_per_superframe info

/-- Spec §4.1: bytesPerSuperframe = frameBytes × framesPerSuperframe. -/
def spec_bytes_per_superframe (info : Nat) : Nat :=
  spec_frame_bytes info * spec_frames_per_superframe info

/-- Spec §4.1: startSuperframe = startSample / samplesPerSuperframe. -/
def spec_start_superframe (start_sample info : Nat) : Nat :=
  start_sample / spec_samples_per_superframe info

/-- Spec §4.1: numSuperframes = ceil((startSample+numSamples)/samplesPerSuperframe) − startSuperframe,
with the ceiling written as `(a + d - 1) / d` over `Nat`. -/
def spec_num_superframe (start_sample num_samples info : Nat) : Nat :=
  (start_sample + num_samples + spec_samples_per_superframe info - 1)
      / spec_samples_per_superframe info
    - spec_start_superframe start_sample info

/-- Spec §4.1: the full output record of `computeSkipInfo`, with
`isSuperPacket` set iff framesPerSuperframe > 1. -/
def spec_skip_info (start_sample num_samples info : Nat) : SkipBufferInfo :=
  { num_bytes := spec_num_superframe start_sample num_samples info * spec_bytes_per_superframe info
    is_super_packet := if 1 < spec_frames_per_superframe info then 1 else 0
    start_byte_offset := spec_start_superframe start_sample info * spec_bytes_per_superframe info
    start_skip := start_sample
      - spec_start_superframe start_sample info * spec_samples_per_superframe info
    end_skip := (spec_start_superframe start_sample info + spec_num_superframe start_sample num_samples info)
        * spec_samples_per_superframe info
      - (start_sample + num_samples) }

/-- Callback events delivered through `data.invoke_callback` (the
`SCE_NGS_AT9_*` notifications). -/
inductive Callback where
  | endOfData
  | swappedBuffer (iteration : Int) (address : Nat)
  | loopedBuffer (iteration : Int) (address : Nat)
  | decodeError (byteOffset : Nat) (address : Nat)
deriving Repr, DecidableEq

/-- One buffer descriptor of the voice parameter block (`BufferParameters`).
Field types follow spec §3 (the header declaring the C++ struct is outside
this file): counts and discard offsets are unsigned; `loop_count` and
`next_buffer_index` are signed, −1 meaning infinite / terminal. -/
structure BufferParameters where
  buffer_address : Nat := 0
  bytes_count : Nat := 0
  loop_count : Int := 0
  next_buffer_index : Int := 0
  samples_discard_start_off : Nat := 0
  samples_discard_end_off : Nat := 0
deriving Repr, DecidableEq, Inhabited

/-- Voice parameter block (`Parameters`): the chain of 4 buffer descriptors. -/
structure Parameters where
  bp0 : BufferParameters := {}
  bp1 : BufferParameters := {}
  bp2 : BufferParameters := {}
  bp3 : BufferParameters := {}
deriving Repr, DecidableEq, Inhabited

/-- Access `params->buffer_params[i]`; indices outside 0..3 (never reached on
the modelled paths) give the all-zero descriptor. -/
def Parameters.bp (p : Parameters) (i : Int) : BufferParameters :=
  if i = 0 then p.bp0
  else if i = 1 then p.bp1
  else if i = 2 then p.bp2
  else if i = 3 then p.bp3
  else {}

/-- Layout constants reported by the decoder capability
(`decoder->get(DecoderQuery::...)` and `decoder->get_es_size()`), fixed for
one configuration word. -/
structure DecoderInfo where
  superframe_size : Nat
  samples_per_frame : Nat
  samples_per_superframe : Nat
  frames_in_superframe : Nat
  es_size : Nat
deriving Repr, DecidableEq

/-- Per-voice playback state (the module `State`).  The C++ struct is declared
in the module header outside this file; the field list and meaning are
modelled from spec §3 (PlaybackState), with the counters as unbounded
naturals.  `extra_storage` is the decoded-PCM backlog, one entry per
interleaved stereo sample frame (8 bytes in the source); an entry is `true`
when the decode step wrote it and `false` when it is zero fill. -/
structure State where
  current_byte_position_in_buffer : Nat := 0
  current_loop_count : Int := 0
  current_buffer : Int := 0
  samples_generated_since_key_on : Nat := 0
  bytes_consumed_since_key_on : Nat := 0
  samples_generated_total : Nat := 0
  total_bytes_consumed : Nat := 0
  decoded_samples_pending : Nat := 0
  decoded_passed : Nat := 0
  extra_storage : List Bool := []
deriving Repr, DecidableEq, Inhabited

/-- Modelled from the spec: the lifecycle state of the parent voice
(`data.parent->state`); the enum is declared outside this file and only
availability ("the voice becomes idle", spec §3) matters here. -/
inductive VoiceState where
  | available
  | active
deriving Repr, DecidableEq

/-- atrac9.cpp lines 67-77: `Module::on_state_change`. -/
def on_state_change (parent_state : VoiceState) (is_keyed_off : Bool) (s : State) : State :=
  if parent_state = VoiceState.available then
    { s with current_byte_position_in_buffer := 0, current_loop_count := 0, current_buffer := 0 }
  else if is_keyed_off then
    { s with samples_generated_since_key_on := 0, bytes_consumed_since_key_on := 0 }
  else s

/-- Result of one `decode_more_data` call: updated state, callbacks emitted
in order, the C++ return value (`cont = true` means "call me again"), and
whether `decoder->clear_context()` ran. -/
structure StepResult where
  state : State
  callbacks : List Callback
  cont : Bool
  clearedContext : Bool
deriving Repr, DecidableEq

/-- atrac9.cpp lines 134-136: the bounded walk over empty buffers,
`for (int k = 0; k < 4 && cur != -1 && bytes_count == 0; k++) cur = next`.
The first argument after the parameter block is the remaining hop budget. -/
def skipWalk (p : Parameters) : Nat → Int → Int
  | 0, cur => cur
  | k + 1, cur =>
    if cur ≠ -1 ∧ (p.bp cur).bytes_count = 0 then
      skipWalk p k (p.bp cur).next_buffer_index
    else cur

/-- atrac9.cpp lines 95-126: the loop bookkeeping and lifecycle callbacks of
the buffer-exhausted branch (increment the loop iteration; advance or stay;
emit `EndOfData` / `BufferSwapped` / `BufferLooped`; reset the byte offset),
returning the mutated state and the callbacks in emission order. -/
def transitionAdvance (p : Parameters) (s : State) : State × List Callback :=
  let bufparam := p.bp s.current_buffer
  let lc := s.current_loop_count + 1
  let step :=
    if bufparam.loop_count ≠ -1 ∧ lc > bufparam.loop_count then
      let nb := bufparam.next_buffer_index
      let s1 : State := { s with current_loop_count := 0, current_buffer := nb }
      if nb = -1 then (s1, [Callback.endOfData])
      else (s1, [Callback.swappedBuffer 0 (p.bp nb).buffer_address])
    else
      ({ s with current_loop_count := lc },
        [Callback.swappedBuffer lc bufparam.buffer_address,
         Callback.loopedBuffer lc bufparam.buffer_address])
  ({ step.1 with current_byte_position_in_buffer := 0 }, step.2)

/-- atrac9.cpp lines 94-145: the buffer-exhausted branch of
`decode_more_data` (loop bookkeeping, lifecycle callbacks, empty-buffer
walk).  Runs after the backlog compaction, when
`current_byte_position_in_buffer >= bytes_count`. -/
def bufferTransition (p : Parameters) (s : State) : StepResult :=
  let s2 := (transitionAdvance p s).1
  let cbs := (transitionAdvance p s).2
  if s2.current_buffer = -1 then ⟨s2, cbs, false, false⟩
  else if (p.bp s2.current_buffer).bytes_count = 0 then
    if skipWalk p 4 s2.current_buffer = -1 ∨
        (p.bp (skipWalk p 4 s2.current_buffer)).bytes_count = 0 then
      ⟨s2, cbs, false, false⟩
    else ⟨s2, cbs, true, false⟩
  else ⟨s2, cbs, true, false⟩

/-- atrac9.cpp lines 160-181: the discard-trimming computation, returning
`(decoded_size, decoded_start_offset)` in `uint32_t` arithmetic.  In the end
branch the source also derives a clamped
`skipped_samples = min(samples_per_superframe, samples_discard_end_off - samples_left_after)`
but leaves it unused and subtracts the raw `samples_discard_end_off`. -/
def computeDecodedSize (bufparam : BufferParameters) (dec : DecoderInfo)
    (byte_pos frame_bytes_gotten : Nat) : Nat × Nat :=
  let sps := dec.samples_per_superframe
  let afterStart :=
    let sample_index := mul32 (byte_pos / dec.superframe_size) sps
    if bufparam.samples_discard_start_off > sample_index then
      let skipped_samples := min sps (bufparam.samples_discard_start_off - sample_index)
      (sub32 sps skipped_samples, skipped_samples)
    else (sps, 0)
  let samples_left_after := mul32 (sub32 (frame_bytes_gotten / dec.superframe_size) 1) sps
  if bufparam.samples_discard_end_off > samples_left_after then
    (sub32 afterStart.1 bufparam.samples_discard_end_off, afterStart.2)
  else afterStart

/-- Outcome of the per-frame submit loop with `n` frames to go starting at
frame index `i`: how many frames were submitted successfully before the
first `decoder->send` failure, and whether a failure occurred. -/
def frameLoopFrom (sends : Nat → Bool) : Nat → Nat → Nat × Bool
  | 0, _ => (0, false)
  | n + 1, i =>
    if sends i then
      let r := frameLoopFrom sends n (i + 1)
      (r.1 + 1, r.2)
    else (0, true)

/-- atrac9.cpp lines 190-233: the `for frame` loop over
`AT9_FRAMES_IN_SUPERFRAME`, abstracted to its submit outcomes. -/
def frameLoop (sends : Nat → Bool) (n : Nat) : Nat × Bool := frameLoopFrom sends n 0

/-- Model of `std::vector::resize` on the backlog: keep the first `n`
frames, pad with zero fill when growing. -/
def resizeTo (l : List Bool) (n : Nat) : List Bool :=
  l.take n ++ List.replicate (n - l.length) false

/-- atrac9.cpp lines 148-256: the superframe decode branch of
`decode_more_data` (size check, discard trimming, frame submit loop, copy of
the trimmed region into the backlog at the write cursor, error callback and
context clearing, counter updates).  Note that the copy and every counter
update run whether or not a submit failed. -/
def decodeSuperframe (p : Parameters) (dec : DecoderInfo) (sends : Nat → Bool)
    (s : State) : StepResult :=
  let bufparam := p.bp s.current_buffer
  let frame_bytes_gotten := bufparam.bytes_count - s.current_byte_position_in_buffer
  if frame_bytes_gotten < dec.superframe_size then ⟨s, [], false, false⟩
  else
    let curr_pos := s.decoded_samples_pending
    let ds := computeDecodedSize bufparam dec s.current_byte_position_in_buffer frame_bytes_gotten
    let decoded_size := ds.1
    let fl := frameLoop sends dec.frames_in_superframe
    let got_decode_error := fl.2
    let new_pos := s.current_byte_position_in_buffer + fl.1 * dec.es_size
    let storage := resizeTo s.extra_storage curr_pos ++ List.replicate decoded_size true
    let errCbs :=
      if got_decode_error then
        [Callback.decodeError new_pos (p.bp s.current_buffer).buffer_address]
      else []
    ⟨{ s with
        current_byte_position_in_buffer := new_pos
        extra_storage := storage
        samples_generated_since_key_on := s.samples_generated_since_key_on + decoded_size
        samples_generated_total := s.samples_generated_total + decoded_size
        bytes_consumed_since_key_on := s.bytes_consumed_since_key_on + dec.superframe_size
        total_bytes_consumed := s.total_bytes_consumed + dec.superframe_size
        decoded_samples_pending := s.decoded_samples_pending + decoded_size },
      errCbs, true, got_decode_error⟩

/-- atrac9.cpp lines 89-92: drop the already-consumed front of the backlog
and reset the consumption cursor (skipped when the backlog is empty). -/
def compactStorage (s : State) : State :=
  if s.extra_storage = [] then s
  else { s with extra_storage := s.extra_storage.drop s.decoded_passed, decoded_passed := 0 }

/-- atrac9.cpp lines 79-257: `Module::decode_more_data`.  The entry
compaction (lines 89-92) drops the already-consumed front of the backlog,
then either the buffer-transition branch or the superframe decode branch
runs. -/
def decode_more_data (p : Parameters) (dec : DecoderInfo) (sends : Nat → Bool)
    (s : State) : StepResult :=
  let bufparam := p.bp s.current_buffer
  let s1 := compactStorage s
  if s1.current_byte_position_in_buffer ≥ bufparam.bytes_count then
    bufferTransition p s1
  else
    decodeSuperframe p dec sends s1

/-- Outcome of one `Module::process` tick. -/
inductive ProcessResult where
  | earlyExit
  | finished (published : Nat)
  | continued (sliceStart published : Nat)
  | noFuel
deriving Repr, DecidableEq

/-- Value of `static_cast<std::int32_t>` applied to an unsigned 32-bit
quantity. -/
def toInt32 (n : Nat) : Int :=
  if n % 2 ^ 32 < 2 ^ 31 then (n % 2 ^ 32 : Int) else (n % 2 ^ 32 : Int) - 2 ^ 32

/-- Modelled from the spec: `data.fill_to_fit_granularity()` is declared
outside this file; spec §4.4 says "pad the backlog with silence up to exactly
`granularity` samples". -/
def fill_to_fit_granularity (granularity : Nat) (l : List Bool) : List Bool :=
  l ++ List.replicate (granularity - l.length) false

/-- atrac9.cpp lines 288-294: the publishing tail of `Module::process`;
`decoded_samples_pending` is decremented by `granularity` floored at zero and
the consumption cursor `decoded_passed` advances by `granularity`. -/
def publishTick (granularity : Nat) (s : State) : State :=
  { s with
    decoded_samples_pending :=
      if s.decoded_samples_pending < granularity then 0
      else s.decoded_samples_pending - granularity
    decoded_passed := s.decoded_passed + granularity }

/-- Result record of one `Module::process` tick. -/
structure TickResult where
  state : State
  callbacks : List Callback
  result : ProcessResult
deriving Repr, DecidableEq

/-- atrac9.cpp lines 276-296: the
`while (static_cast<int32>(decoded_samples_pending) < granularity)` loop of
`Module::process` followed by the publishing tail.  `sendsSeq k` is the
decoder submit oracle for the `k`-th `decode_more_data` call of this tick;
`fuel` bounds the loop (the source loops without bound). -/
def processLoop (p : Parameters) (dec : DecoderInfo) (sendsSeq : Nat → Nat → Bool)
    (granularity : Nat) : Nat → Nat → State → TickResult
  | 0, _, s => ⟨s, [], ProcessResult.noFuel⟩
  | fuel + 1, callIdx, s =>
    if toInt32 s.decoded_samples_pending < (granularity : Int) then
      let r := decode_more_data p dec (sendsSeq callIdx) s
      if r.cont then
        let t := processLoop p dec sendsSeq granularity fuel (callIdx + 1) r.state
        ⟨t.state, r.callbacks ++ t.callbacks, t.result⟩
      else
        let s2 : State :=
          { r.state with
            extra_storage := fill_to_fit_granularity granularity r.state.extra_storage
            samples_generated_since_key_on := 0
            bytes_consumed_since_key_on := 0 }
        ⟨s2, r.callbacks, ProcessResult.finished s2.extra_storage.length⟩
    else
      ⟨publishTick granularity s, [], ProcessResult.continued s.decoded_passed granularity⟩

/-- atrac9.cpp lines 259-297: `Module::process` (the decoder is already
built; its layout constants are `dec`). -/
def process (p : Parameters) (dec : DecoderInfo) (sendsSeq : Nat → Nat → Bool)
    (granularity fuel : Nat) (s : State) : TickResult :=
  if s.current_buffer = -1 ∨ (p.bp s.current_buffer).buffer_address = 0 then
    ⟨s, [], ProcessResult.earlyExit⟩
  else processLoop p dec sendsSeq granularity fuel 0 s

/-- Iterate `process` over a list of ticks, each with its submit oracle and
its loop fuel. -/
def runTicks (p : Parameters) (dec : DecoderInfo) (granularity : Nat) :
    List ((Nat → Nat → Bool) × Nat) → State → State
  | [], s => s
  | t :: rest, s => runTicks p dec granularity rest (process p dec t.1 granularity t.2 s).state

/-- Number of decode-produced sample frames currently held in the backlog. -/
def decodedFrames (l : List Bool) : Nat := l.countP (fun b => b)

/-- Backlog well-formedness: the backlog is exactly the decode-produced
frames (cursor-passed plus pending) followed by zero fill, the zero fill
never pushes the length past `max(decoded, granularity)`, and the pending
count is below the `int32` cast boundary. -/
def Inv (granularity : Nat) (s : State) : Prop :=
  (∃ pad, s.extra_storage =
      List.replicate (s.decoded_passed + s.decoded_samples_pending) true
        ++ List.replicate pad false ∧
    s.decoded_passed + s.decoded_samples_pending + pad ≤
      max (s.decoded_passed + s.decoded_samples_pending) granularity) ∧
  s.decoded_samples_pending < 2 ^ 31

/-- Benign-discard condition on one buffer descriptor: the leading and
trailing discards together fit in one superframe, so the raw end-discard
subtraction of the decode step cannot underflow. -/
def GoodBuf (b : BufferParameters) (sps : Nat) : Prop :=
  b.samples_discard_start_off + b.samples_discard_end_off ≤ sps

/-- Well-behaved configuration: positive superframe size, a superframe of at
most `2^30` samples, and benign discards on all four buffer slots. -/
def GoodParams (p : Parameters) (dec : DecoderInfo) : Prop :=
  0 < dec.superframe_size ∧ dec.samples_per_superframe ≤ 2 ^ 30 ∧
  GoodBuf p.bp0 dec.samples_per_superframe ∧ GoodBuf p.bp1 dec.samples_per_superframe ∧
  GoodBuf p.bp2 dec.samples_per_superframe ∧ GoodBuf p.bp3 dec.samples_per_superframe

/-! Arithmetic helpers for the wrap-around operations. -/

lemma add32_eq {a b : Nat} (h : a + b < 2 ^ 32) : add32 a b = a + b := by
  unfold add32; omega

lemma sub32_eq {a b : Nat} (hb : b ≤ a) (ha : a < 2 ^ 32) : sub32 a b = a - b := by
  unfold sub32; omega

lemma mul32_eq {a b : Nat} (h : a * b < 2 ^ 32) : mul32 a b = a * b := by
  unfold mul32; exact Nat.mod_eq_of_lt h

/-! Characterisation of the per-frame submit loop. -/

lemma frameLoopFrom_fail (sends : Nat → Bool) :
    ∀ n j k, k < n → (∀ i, i < k → sends (j + i) = true) → sends (j + k) = false →
      frameLoopFrom sends n j = (k, true) := by
  intro n
  induction n with
  | zero => intro j k hk; omega
  | succ n ih =>
    intro j k hk hok hfail
    cases k with
    | zero =>
      have : sends j = false := by simpa using hfail
      simp [frameLoopFrom, this]
    | succ k =>
      have hj : sends j = true := by simpa using hok 0 (Nat.succ_pos k)
      have hrec : frameLoopFrom sends n (j + 1) = (k, true) := by
        apply ih (j + 1) k (by omega)
        · intro i hi
          have := hok (i + 1) (by omega)
          simpa [Nat.add_assoc, Nat.add_comm 1 i] using this
        · simpa [Nat.add_assoc, Nat.add_comm 1 k] using hfail
      simp [frameLoopFrom, hj, hrec]

lemma frameLoopFrom_ok (sends : Nat → Bool) (hall : ∀ i, sends i = true) :
    ∀ n j, frameLoopFrom sends n j = (n, false) := by
  intro n
  induction n with
  | zero => intro j; rfl
  | succ n ih => intro j; simp [frameLoopFrom, hall j, ih (j + 1)]

lemma frameLoop_fail (sends : Nat → Bool) (n k : Nat) (hk : k < n)
    (hok : ∀ i, i < k → sends i = true) (hfail : sends k = false) :
    frameLoop sends n = (k, true) := by
  have := frameLoopFrom_fail sends n 0 k hk (by simpa using hok) (by simpa using hfail)
  simpa [frameLoop] using this

lemma frameLoop_ok (sends : Nat → Bool) (hall : ∀ i, sends i = true) (n : Nat) :
    frameLoop sends n = (n, false) := by
  simp [frameLoop, frameLoopFrom_ok sends hall n 0]

/-! Claim C1.  The claim as stated is false: the end-discard branch subtracts
the raw `samples_discard_end_off` (the clamped `skipped_samples` value is
computed but unused), so the retained size underflows in `uint32_t` whenever
the raw trailing discard exceeds the size remaining after the start skip. -/

/-- Decoder layout used by the concrete decode scenarios: 8-byte superframes
of 4 encoded frames of 2 bytes, 2 samples per frame, 8 samples per
superframe. -/
def scenarioDec : DecoderInfo :=
  { superframe_size := 8, samples_per_frame := 2, samples_per_superframe := 8,
    frames_in_superframe := 4, es_size := 2 }

/-- Claim C1 is false on the code: with samplesPerSuperframe = 8 and a
trailing discard of 300 samples on a one-superframe buffer, the decode step's
retained sample count wraps to 2^32 − 292, far outside [0, 8]. -/
theorem claim_C1_counterexample :
    (computeDecodedSize { samples_discard_end_off := 300 } scenarioDec 0 8).1 = 4294967004 ∧
    ¬(computeDecodedSize { samples_discard_end_off := 300 } scenarioDec 0 8).1 ≤ 8 := by
  constructor
  · rfl
  · decide

/-- Whenever a buffer's start and end discards together fit in one
superframe, the trimmed decoded size cannot exceed the superframe (the start
skip is clamped, and the raw end-discard subtraction cannot underflow). -/
lemma decodedSize_le_of_fit (bufparam : BufferParameters) (dec : DecoderInfo)
    (byte_pos fbg : Nat) (hsps : dec.samples_per_superframe < 2 ^ 32)
    (hdisc : bufparam.samples_discard_start_off + bufparam.samples_discard_end_off ≤
      dec.samples_per_superframe) :
    (computeDecodedSize bufparam dec byte_pos fbg).1 ≤ dec.samples_per_superframe := by
  have hmin : min dec.samples_per_superframe
      (bufparam.samples_discard_start_off -
        mul32 (byte_pos / dec.superframe_size) dec.samples_per_superframe) ≤
      dec.samples_per_superframe := Nat.min_le_left _ _
  have hmin2 : min dec.samples_per_superframe
      (bufparam.samples_discard_start_off -
        mul32 (byte_pos / dec.superframe_size) dec.samples_per_superframe) ≤
      bufparam.samples_discard_start_off :=
    le_trans (Nat.min_le_right _ _) (Nat.sub_le _ _)
  simp only [computeDecodedSize]
  by_cases h1 : bufparam.samples_discard_start_off >
      mul32 (byte_pos / dec.superframe_size) dec.samples_per_superframe
  · simp only [if_pos h1]
    by_cases h2 : bufparam.samples_discard_end_off >
        mul32 (sub32 (fbg / dec.superframe_size) 1) dec.samples_per_superframe
    · simp only [if_pos h2]
      rw [sub32_eq hmin hsps, sub32_eq (by omega) (by omega)]
      omega
    · simp only [if_neg h2]
      rw [sub32_eq hmin hsps]
      omega
  · simp only [if_neg h1]
    by_cases h2 : bufparam.samples_discard_end_off >
        mul32 (sub32 (fbg / dec.superframe_size) 1) dec.samples_per_superframe
    · simp only [if_pos h2]
      rw [sub32_eq (by omega) hsps]
      omega
    · simp only [if_neg h2]
      exact le_rfl

/-- Claim C1 (amended): the start skip is clamped to the superframe size, but
the end branch subtracts the raw `samples_discard_end_off`; the retained
decoded size stays within [0, samplesPerSuperframe] provided the buffer's
start and end discards together fit in one superframe (in particular it
cannot underflow then). -/
theorem claim_C1 (bufparam : BufferParameters) (dec : DecoderInfo) (byte_pos fbg : Nat)
    (hsps : dec.samples_per_superframe < 2 ^ 32)
    (hdisc : bufparam.samples_discard_start_off + bufparam.samples_discard_end_off ≤
      dec.samples_per_superframe) :
    (computeDecodedSize bufparam dec byte_pos fbg).1 ≤ dec.samples_per_superframe :=
  decodedSize_le_of_fit bufparam dec byte_pos fbg hsps hdisc

/-- Witness for the amended C1 at a concrete benign-discard input. -/
theorem claim_C1_witness :
    scenarioDec.samples_per_superframe < 2 ^ 32 ∧
    (3 : Nat) + 4 ≤ scenarioDec.samples_per_superframe ∧
    (computeDecodedSize { samples_discard_start_off := 3, samples_discard_end_off := 4 }
      scenarioDec 0 8).1 ≤ scenarioDec.samples_per_superframe :=
  ⟨by decide, by decide,
    claim_C1 { samples_discard_start_off := 3, samples_discard_end_off := 4 }
      scenarioDec 0 8 (by decide) (by decide)⟩

/-! Claim C2.  The claim as stated is false: on a submit failure the frame
loop breaks, but the trimmed (partially zero-filled) superframe region is
still copied into the backlog and every counter still advances. -/

/-- Parameter block used by the decode-error scenarios: one 8-byte buffer at
address 5 with no discards. -/
def errParams : Parameters := { bp0 := { buffer_address := 5, bytes_count := 8 } }

/-- Claim C2 is false on the code: when every submit fails, the decode step
still appends 8 frames to the backlog and still advances
`decoded_samples_pending` and `samples_generated_total` by the full trimmed
size. -/
theorem claim_C2_counterexample :
    (decode_more_data errParams scenarioDec (fun _ => false) {}).state.decoded_samples_pending = 8 ∧
    (decode_more_data errParams scenarioDec (fun _ => false) {}).state.samples_generated_total = 8 ∧
    (decode_more_data errParams scenarioDec (fun _ => false) {}).state.extra_storage.length = 8 ∧
    (decode_more_data errParams scenarioDec (fun _ => false) {}).callbacks =
      [Callback.decodeError 0 5] ∧
    (8 : Nat) ≠ 0 := by
  refine ⟨rfl, rfl, rfl, rfl, by decide⟩

/-- Claim C2 (amended): when submit fails on frame `k` of the superframe, the
step stops submitting further frames, but the superframe-sized trimmed region
(partially zero fill) is still appended to the backlog at the write cursor,
and all counters (samples since key-on / total by the trimmed size, bytes by
the superframe size, the pending count by the trimmed size) still advance;
the step still reports "call me again". -/
theorem claim_C2 (p : Parameters) (dec : DecoderInfo) (sends : Nat → Bool) (s : State)
    (k : Nat) (hk : k < dec.frames_in_superframe)
    (hok : ∀ i, i < k → sends i = true) (hfail : sends k = false)
    (hbytes : s.current_byte_position_in_buffer + dec.superframe_size ≤
      (p.bp s.current_buffer).bytes_count) :
    (decodeSuperframe p dec sends s).cont = true ∧
    (decodeSuperframe p dec sends s).clearedContext = true ∧
    (decodeSuperframe p dec sends s).state.decoded_samples_pending =
      s.decoded_samples_pending +
        (computeDecodedSize (p.bp s.current_buffer) dec s.current_byte_position_in_buffer
          ((p.bp s.current_buffer).bytes_count - s.current_byte_position_in_buffer)).1 ∧
    (decodeSuperframe p dec sends s).state.samples_generated_total =
      s.samples_generated_total +
        (computeDecodedSize (p.bp s.current_buffer) dec s.current_byte_position_in_buffer
          ((p.bp s.current_buffer).bytes_count - s.current_byte_position_in_buffer)).1 ∧
    (decodeSuperframe p dec sends s).state.total_bytes_consumed =
      s.total_bytes_consumed + dec.superframe_size ∧
    (decodeSuperframe p dec sends s).state.extra_storage =
      resizeTo s.extra_storage s.decoded_samples_pending ++
        List.replicate
          (computeDecodedSize (p.bp s.current_buffer) dec s.current_byte_position_in_buffer
            ((p.bp s.current_buffer).bytes_count - s.current_byte_position_in_buffer)).1 true := by
  have hsz : ¬((p.bp s.current_buffer).bytes_count - s.current_byte_position_in_buffer <
      dec.superframe_size) := by omega
  have hfl : frameLoop sends dec.frames_in_superframe = (k, true) :=
    frameLoop_fail sends dec.frames_in_superframe k hk hok hfail
  unfold decodeSuperframe
  simp only [if_neg hsz, hfl]
  simp

/-- Witness for the amended C2: failure on the very first frame of the
scenario superframe. -/
theorem claim_C2_witness :
    (0 : Nat) < scenarioDec.frames_in_superframe ∧
    (decodeSuperframe errParams scenarioDec (fun _ => false) {}).cont = true ∧
    (decodeSuperframe errParams scenarioDec (fun _ => false) {}).state.decoded_samples_pending =
      0 + (computeDecodedSize (errParams.bp 0) scenarioDec 0 256).1 := by
  have h := claim_C2 errParams scenarioDec (fun _ => false) {} 0 (by decide)
    (by intro i hi; omega) rfl (by decide)
  exact ⟨by decide, h.1, by simpa using h.2.2.1⟩

/-- The transition bookkeeping never emits `DecodeError`. -/
lemma transitionAdvance_no_decode_error (p : Parameters) (s : State) (off addr : Nat) :
    Callback.decodeError off addr ∉ (transitionAdvance p s).2 := by
  simp only [transitionAdvance]
  split_ifs <;> simp

/-- The buffer-transition branch never emits `DecodeError`. -/
lemma bufferTransition_no_decode_error (p : Parameters) (s : State) (off addr : Nat) :
    Callback.decodeError off addr ∉ (bufferTransition p s).callbacks := by
  simp only [bufferTransition]
  split_ifs <;> exact transitionAdvance_no_decode_error p s off addr

/-- With an all-success submit oracle the decode branch emits no callback. -/
lemma decodeSuperframe_no_error_of_all_ok (p : Parameters) (dec : DecoderInfo)
    (sends : Nat → Bool) (s : State) (hall : ∀ i, sends i = true) :
    (decodeSuperframe p dec sends s).callbacks = [] := by
  simp only [decodeSuperframe, frameLoop_ok sends hall]
  split_ifs with h h2
  · rfl
  · exact h2.elim
  · rfl

/-- With an all-success submit oracle `decode_more_data` emits no
`DecodeError`. -/
lemma no_decode_error_of_all_ok (p : Parameters) (dec : DecoderInfo) (sends : Nat → Bool)
    (s : State) (hall : ∀ i, sends i = true) (off addr : Nat) :
    Callback.decodeError off addr ∉ (decode_more_data p dec sends s).callbacks := by
  simp only [decode_more_data]
  split_ifs
  · exact bufferTransition_no_decode_error _ _ _ _
  · simp [decodeSuperframe_no_error_of_all_ok p dec sends _ hall]

/-! Claim C3.  The claim as stated is false: the `DecodeError` callback
carries `state->current_byte_position_in_buffer`, which at that point has
already advanced past every successfully decoded frame, not the byte offset
of the superframe's start. -/

/-- Claim C3 is false on the code: with a failure on frame 2 (index 1), the
callback reports byte offset 2 = one encoded frame past the superframe
start 0. -/
theorem claim_C3_counterexample :
    (decode_more_data errParams scenarioDec (fun i => decide (i = 0)) {}).callbacks =
      [Callback.decodeError 2 5] ∧ (2 : Nat) ≠ 0 := by
  refine ⟨rfl, by decide⟩

/-- Claim C3 (amended): on a submit failure at frame `k`, `DecodeError` is
emitted with the superframe's start offset advanced by `k` encoded frame
sizes, the decoder context is cleared (`clear_context`), the step still
reports "call me again", and a following call whose submits all succeed emits
no `DecodeError`. -/
theorem claim_C3 (p : Parameters) (dec : DecoderInfo) (sends : Nat → Bool) (s : State)
    (k : Nat) (hk : k < dec.frames_in_superframe)
    (hok : ∀ i, i < k → sends i = true) (hfail : sends k = false)
    (hbytes : s.current_byte_position_in_buffer + dec.superframe_size ≤
      (p.bp s.current_buffer).bytes_count) :
    (decodeSuperframe p dec sends s).callbacks =
      [Callback.decodeError (s.current_byte_position_in_buffer + k * dec.es_size)
        (p.bp s.current_buffer).buffer_address] ∧
    (decodeSuperframe p dec sends s).clearedContext = true ∧
    (decodeSuperframe p dec sends s).cont = true ∧
    ∀ (sends2 : Nat → Bool), (∀ i, sends2 i = true) →
      ∀ off addr, Callback.decodeError off addr ∉
        (decode_more_data p dec sends2 (decodeSuperframe p dec sends s).state).callbacks := by
  have hsz : ¬((p.bp s.current_buffer).bytes_count - s.current_byte_position_in_buffer <
      dec.superframe_size) := by omega
  have hfl : frameLoop sends dec.frames_in_superframe = (k, true) :=
    frameLoop_fail sends dec.frames_in_superframe k hk hok hfail
  refine ⟨?_, ?_, ?_, ?_⟩
  · unfold decodeSuperframe; simp [if_neg hsz, hfl]
  · unfold decodeSuperframe; simp [if_neg hsz, hfl]
  · unfold decodeSuperframe; simp [if_neg hsz, hfl]
  · intro sends2 hall off addr
    exact no_decode_error_of_all_ok p dec sends2 _ hall off addr

/-- Witness for the amended C3 at the concrete frame-2 failure scenario. -/
theorem claim_C3_witness :
    (1 : Nat) < scenarioDec.frames_in_superframe ∧
    (decodeSuperframe errParams scenarioDec (fun i => decide (i = 0)) {}).callbacks =
      [Callback.decodeError (0 + 1 * scenarioDec.es_size) (errParams.bp 0).buffer_address] := by
  have h := claim_C3 errParams scenarioDec (fun i => decide (i = 0)) {} 1 (by decide)
    (by intro i hi; interval_cases i; rfl) (by decide) (by decide)
  exact ⟨by decide, h.1⟩

/-! Claim C4: the self-looping scenario with loopCount = 2. -/

/-- Buffer chain for the loop scenario: slot 0 loops itself twice
(`loop_count = 2`) then advances to slot 1, whose next index is terminal. -/
def loopScenarioParams : Parameters :=
  { bp0 := { buffer_address := 1000, bytes_count := 100, loop_count := 2, next_buffer_index := 1 }
    bp1 := { buffer_address := 2000, bytes_count := 100, loop_count := 0, next_buffer_index := -1 } }

/-- Claim C4: with loopCount = 2 the buffer is consumed three times
(iterations 0, 1, 2).  The first two exhaustion transitions stay on the
buffer and emit both `BufferSwapped` and `BufferLooped` with the new
iteration and the buffer's address; the third advances to slot 1 emitting
`BufferSwapped` only; exhausting slot 1 moves to the terminal index −1 and
emits `EndOfData` only. -/
theorem claim_C4 :
    (bufferTransition loopScenarioParams
        { current_buffer := 0, current_loop_count := 0, current_byte_position_in_buffer := 100 } =
      ⟨{ current_buffer := 0, current_loop_count := 1 },
        [Callback.swappedBuffer 1 1000, Callback.loopedBuffer 1 1000], true, false⟩) ∧
    (bufferTransition loopScenarioParams
        { current_buffer := 0, current_loop_count := 1, current_byte_position_in_buffer := 100 } =
      ⟨{ current_buffer := 0, current_loop_count := 2 },
        [Callback.swappedBuffer 2 1000, Callback.loopedBuffer 2 1000], true, false⟩) ∧
    (bufferTransition loopScenarioParams
        { current_buffer := 0, current_loop_count := 2, current_byte_position_in_buffer := 100 } =
      ⟨{ current_buffer := 1, current_loop_count := 0 },
        [Callback.swappedBuffer 0 2000], true, false⟩) ∧
    (bufferTransition loopScenarioParams
        { current_buffer := 1, current_loop_count := 0, current_byte_position_in_buffer := 100 } =
      ⟨{ current_buffer := -1, current_loop_count := 0 },
        [Callback.endOfData], false, false⟩) := by
  refine ⟨?_, ?_, ?_, ?_⟩ <;> rfl

/-! Claim C9.  The claim as stated is false: on the transition to the
available state only the buffer index, the byte offset and the loop
iteration are cleared; the sample/byte counters and the pending backlog
count are left untouched. -/

/-- Claim C9 is false on the code: a voice becoming available keeps its
nonzero `decoded_samples_pending` (and its other counters). -/
theorem claim_C9_counterexample :
    (on_state_change VoiceState.available false
        { decoded_samples_pending := 5, samples_generated_total := 7 }).decoded_samples_pending = 5 ∧
    (on_state_change VoiceState.available false
        { decoded_samples_pending := 5, samples_generated_total := 7 }).samples_generated_total = 7 ∧
    (5 : Nat) ≠ 0 := by
  refine ⟨rfl, rfl, by decide⟩

/-- Claim C9 (amended): when the voice becomes available, only the buffer
index, byte offset and loop iteration are reset to zero (counters and the
pending backlog count are unchanged); on key-off, only the since-key-on
counters are reset, with buffer index, byte offset and loop iteration left
unchanged; otherwise the state is untouched. -/
theorem claim_C9 (s : State) (b : Bool) :
    on_state_change VoiceState.available b s =
      { s with current_byte_position_in_buffer := 0, current_loop_count := 0,
               current_buffer := 0 } ∧
    on_state_change VoiceState.active true s =
      { s with samples_generated_since_key_on := 0, bytes_consumed_since_key_on := 0 } ∧
    on_state_change VoiceState.active false s = s := by
  refine ⟨?_, ?_, ?_⟩ <;> simp [on_state_change]

/-! Bit-extraction lemmas: the code's mask-and-shift expressions equal the
spec's divide-and-mod formulas. -/

lemma mask_shift_eq (info k m : Nat) :
    (info &&& ((2 ^ m - 1) <<< k)) >>> k = info / 2 ^ k % 2 ^ m := by
  rw [← Nat.shiftRight_eq_div_pow]
  apply Nat.eq_of_testBit_eq
  intro i
  simp only [Nat.testBit_shiftRight, Nat.testBit_and, Nat.testBit_shiftLeft,
    Nat.testBit_two_pow_sub_one, Nat.testBit_mod_two_pow, ge_iff_le, Nat.le_add_right]
  have h2 : k + i - k = i := by omega
  simp [h2, Bool.and_comm]

lemma sample_rate_index_eq (info : Nat) :
    sample_rate_index info = spec_sample_rate_index info := by
  unfold sample_rate_index spec_sample_rate_index
  have h : (15 : Nat) = 2 ^ 4 - 1 := by norm_num
  rw [h, mask_shift_eq]

lemma block_rate_index_eq (info : Nat) :
    block_rate_index info = spec_block_rate_index info := by
  unfold block_rate_index spec_block_rate_index
  have h : (7 : Nat) = 2 ^ 3 - 1 := by norm_num
  rw [h, mask_shift_eq]

lemma superframe_index_eq (info : Nat) :
    superframe_index info = spec_superframe_exponent info := by
  unfold superframe_index spec_superframe_exponent
  have h : (3 : Nat) = 2 ^ 2 - 1 := by norm_num
  rw [h, mask_shift_eq]

lemma frame_bytes_eq (info : Nat) : frame_bytes info = spec_frame_bytes info := by
  unfold frame_bytes spec_frame_bytes
  have h0 : (0xFF0000 : Nat) = (2 ^ 8 - 1) <<< 16 := by norm_num [Nat.shiftLeft_eq]
  have h7 : (7 : Nat) = 2 ^ 3 - 1 := by norm_num
  rw [h0, h7, mask_shift_eq, mask_shift_eq]
  have h3 : info / 2 ^ 29 % 2 ^ 3 < 2 ^ 3 := Nat.mod_lt _ (by norm_num)
  rw [Nat.shiftLeft_eq, Nat.mul_comm, ← Nat.mul_add_lt_is_or h3]

lemma frame_per_superframe_eq (info : Nat) :
    frame_per_superframe info = spec_frames_per_superframe info := by
  unfold frame_per_superframe spec_frames_per_superframe
  rw [superframe_index_eq, Nat.shiftLeft_eq, one_mul]

lemma samples_per_frame_eq (info : Nat) :
    samples_per_frame info = spec_samples_per_frame info := by
  unfold samples_per_frame spec_samples_per_frame
  rw [sample_rate_index_eq, Nat.shiftLeft_eq, one_mul]

lemma spec_spf_bounds (info : Nat) :
    0 < spec_samples_per_frame info ∧ spec_samples_per_frame info ≤ 2 ^ 8 := by
  unfold spec_samples_per_frame
  refine ⟨Nat.two_pow_pos _, Nat.pow_le_pow_right (by norm_num) ?_⟩
  have h : spec_sample_rate_index info < 16 := by
    unfold spec_sample_rate_index
    exact Nat.mod_lt _ (by norm_num)
  have hall : ∀ j, j < 16 → sample_rate_index_to_frame_sample_power.getD j 0 ≤ 8 := by decide
  exact hall _ h

lemma spec_fps_bounds (info : Nat) :
    0 < spec_frames_per_superframe info ∧ spec_frames_per_superframe info ≤ 2 ^ 3 := by
  unfold spec_frames_per_superframe
  refine ⟨Nat.two_pow_pos _, Nat.pow_le_pow_right (by norm_num) ?_⟩
  have h : spec_superframe_exponent info < 2 ^ 2 := by
    unfold spec_superframe_exponent
    exact Nat.mod_lt _ (by norm_num)
  omega

lemma spec_sps_bounds (info : Nat) :
    0 < spec_samples_per_superframe info ∧ spec_samples_per_superframe info ≤ 2 ^ 11 := by
  unfold spec_samples_per_superframe
  have h1 := spec_spf_bounds info
  have h2 := spec_fps_bounds info
  constructor
  · exact Nat.mul_pos h1.1 h2.1
  · calc spec_samples_per_frame info * spec_frames_per_superframe info ≤ 2 ^ 8 * 2 ^ 3 :=
        Nat.mul_le_mul h1.2 h2.2
    _ = 2 ^ 11 := by norm_num

lemma spec_frame_bytes_bounds (info : Nat) :
    0 < spec_frame_bytes info ∧ spec_frame_bytes info ≤ 2 ^ 11 := by
  unfold spec_frame_bytes
  have h1 : info / 2 ^ 16 % 2 ^ 8 < 2 ^ 8 := Nat.mod_lt _ (by norm_num)
  have h2 : info / 2 ^ 29 % 2 ^ 3 < 2 ^ 3 := Nat.mod_lt _ (by norm_num)
  omega

lemma samples_per_superframe_eq (info : Nat) :
    samples_per_superframe info = spec_samples_per_superframe info := by
  unfold samples_per_superframe
  rw [samples_per_frame_eq, frame_per_superframe_eq]
  have h := spec_sps_bounds info
  unfold spec_samples_per_superframe at h ⊢
  exact mul32_eq (by omega)

lemma bytes_per_superframe_eq (info : Nat) :
    bytes_per_superframe info = spec_bytes_per_superframe info := by
  unfold bytes_per_superframe
  rw [frame_bytes_eq, frame_per_superframe_eq]
  have h1 := spec_frame_bytes_bounds info
  have h2 := spec_fps_bounds info
  unfold spec_bytes_per_superframe
  refine mul32_eq ?_
  calc spec_frame_bytes info * spec_frames_per_superframe info ≤ 2 ^ 11 * 2 ^ 3 :=
      Nat.mul_le_mul h1.2 h2.2
  _ < 2 ^ 32 := by norm_num

lemma start_superframe_eq (start_sample info : Nat) :
    start_superframe start_sample info = spec_start_superframe start_sample info := by
  unfold start_superframe spec_start_superframe
  rw [samples_per_superframe_eq]

/-- Ceiling division dominates: `a ≤ ((a + d - 1) / d) * d` for `d > 0`. -/
lemma le_ceil_mul {a d : Nat} (hd : 0 < d) : a ≤ (a + d - 1) / d * d := by
  by_contra hcon
  push_neg at hcon
  have hstep : ((a + d - 1) / d + 1) * d ≤ a + d - 1 := by
    have h0 : (a + d - 1) / d * d + d ≤ a + d - 1 := by
      generalize (a + d - 1) / d * d = t at hcon ⊢
      omega
    calc ((a + d - 1) / d + 1) * d = (a + d - 1) / d * d + d := by ring
    _ ≤ a + d - 1 := h0
  have := (Nat.le_div_iff_mul_le hd).mpr hstep
  omega

/-- The `num_superframe` value computed by the code equals the spec's
ceiling formula when the ceiling numerator has no 32-bit overflow. -/
lemma num_superframe_eq (start_sample num_samples info : Nat)
    (h1 : start_sample + num_samples + spec_samples_per_superframe info ≤ 2 ^ 32) :
    num_superframe start_sample num_samples info =
      spec_num_superframe start_sample num_samples info := by
  have hsps := spec_sps_bounds info
  unfold num_superframe spec_num_superframe
  rw [samples_per_superframe_eq, start_superframe_eq]
  have hxy : add32 start_sample num_samples = start_sample + num_samples := by
    apply add32_eq; omega
  rw [hxy]
  have hwrap : sub32 (add32 (start_sample + num_samples) (spec_samples_per_superframe info)) 1 =
      start_sample + num_samples + spec_samples_per_superframe info - 1 := by
    unfold add32 sub32
    omega
  rw [hwrap]
  set T := (start_sample + num_samples + spec_samples_per_superframe info - 1) /
    spec_samples_per_superframe info with hT
  have hmono : spec_start_superframe start_sample info ≤ T := by
    rw [hT]
    unfold spec_start_superframe
    exact Nat.div_le_div_right (by omega)
  have hTlt : T < 2 ^ 32 := by
    rw [hT]
    calc (start_sample + num_samples + spec_samples_per_superframe info - 1) /
        spec_samples_per_superframe info ≤
        start_sample + num_samples + spec_samples_per_superframe info - 1 := Nat.div_le_self _ _
    _ < 2 ^ 32 := by omega
  exact sub32_eq hmono hTlt

/-- Shared computation for the `end_skip` output: under the no-overflow
condition the wrapped expression equals the mathematical one, and the
superframe-aligned range covers the requested window (no underflow). -/
lemma end_skip_eq (start_sample num_samples info : Nat)
    (h1 : start_sample + num_samples + spec_samples_per_superframe info ≤ 2 ^ 32) :
    sub32 (mul32 (add32 (spec_start_superframe start_sample info)
        (spec_num_superframe start_sample num_samples info)) (spec_samples_per_superframe info))
      (add32 start_sample num_samples) =
      (spec_start_superframe start_sample info + spec_num_superframe start_sample num_samples info) *
          spec_samples_per_superframe info - (start_sample + num_samples) ∧
    start_sample + num_samples ≤
      (spec_start_superframe start_sample info + spec_num_superframe start_sample num_samples info) *
        spec_samples_per_superframe info := by
  have hsps := spec_sps_bounds info
  have hS_le : spec_start_superframe start_sample info ≤
      (start_sample + num_samples + spec_samples_per_superframe info - 1) /
        spec_samples_per_superframe info := by
    unfold spec_start_superframe
    exact Nat.div_le_div_right (by omega)
  have hSN : spec_start_superframe start_sample info +
      spec_num_superframe start_sample num_samples info =
      (start_sample + num_samples + spec_samples_per_superframe info - 1) /
        spec_samples_per_superframe info := by
    unfold spec_num_superframe
    omega
  have hTlt : (start_sample + num_samples + spec_samples_per_superframe info - 1) /
      spec_samples_per_superframe info < 2 ^ 32 := by
    calc (start_sample + num_samples + spec_samples_per_superframe info - 1) /
        spec_samples_per_superframe info ≤
        start_sample + num_samples + spec_samples_per_superframe info - 1 := Nat.div_le_self _ _
    _ < 2 ^ 32 := by omega
  have hceil : start_sample + num_samples ≤
      (start_sample + num_samples + spec_samples_per_superframe info - 1) /
        spec_samples_per_superframe info * spec_samples_per_superframe info :=
    le_ceil_mul hsps.1
  have hprod_lt : (start_sample + num_samples + spec_samples_per_superframe info - 1) /
      spec_samples_per_superframe info * spec_samples_per_superframe info < 2 ^ 32 := by
    calc (start_sample + num_samples + spec_samples_per_superframe info - 1) /
        spec_samples_per_superframe info * spec_samples_per_superframe info ≤
        start_sample + num_samples + spec_samples_per_superframe info - 1 :=
        Nat.div_mul_le_self _ _
    _ < 2 ^ 32 := by omega
  constructor
  · rw [add32_eq (by omega), add32_eq (by omega), hSN, mul32_eq hprod_lt,
      sub32_eq hceil hprod_lt]
  · rw [hSN]
    exact hceil

/-- Shared computation for the `start_skip` output. -/
lemma start_skip_eq (start_sample info : Nat) (hs : start_sample < 2 ^ 32) :
    sub32 start_sample (mul32 (spec_start_superframe start_sample info)
      (spec_samples_per_superframe info)) =
    start_sample - spec_start_superframe start_sample info * spec_samples_per_superframe info := by
  have hle : spec_start_superframe start_sample info * spec_samples_per_superframe info ≤
      start_sample := Nat.div_mul_le_self _ _
  rw [mul32_eq (by omega), sub32_eq hle hs]

/-- Leading skip is the remainder of the start sample modulo the superframe
size, hence below it. -/
lemma start_skip_lt (start_sample info : Nat) :
    start_sample - spec_start_superframe start_sample info * spec_samples_per_superframe info <
      spec_samples_per_superframe info := by
  have hpos := (spec_sps_bounds info).1
  have hlt := Nat.mod_lt start_sample hpos
  have h : spec_start_superframe start_sample info * spec_samples_per_superframe info +
      start_sample % spec_samples_per_superframe info = start_sample := by
    unfold spec_start_superframe
    rw [Nat.mul_comm]
    exact Nat.div_add_mod _ _
  omega

/-- Claim C6: under no-overflow side conditions (the inputs are `uint32_t`
values whose ceiling numerator and byte products stay below 2^32), the code's
`get_buffer_parameter` agrees field by field with the spec §4.1 formulas, and
the decoded layout quantities equal the spec's bit-field formulas, with
`samplesPerSuperframe` always positive. -/
theorem claim_C6 (start_sample num_samples info : Nat)
    (h1 : start_sample + num_samples + spec_samples_per_superframe info ≤ 2 ^ 32)
    (h2 : spec_num_superframe start_sample num_samples info * spec_bytes_per_superframe info <
      2 ^ 32)
    (h3 : spec_start_superframe start_sample info * spec_bytes_per_superframe info < 2 ^ 32) :
    get_buffer_parameter start_sample num_samples info =
      spec_skip_info start_sample num_samples info ∧
    sample_rate_index info = info / 2 ^ 12 % 2 ^ 4 ∧
    block_rate_index info = info / 2 ^ 9 % 2 ^ 3 ∧
    frame_bytes info = info / 2 ^ 16 % 2 ^ 8 * 8 + info / 2 ^ 29 % 2 ^ 3 + 1 ∧
    superframe_index info = info / 2 ^ 27 % 2 ^ 2 ∧
    samples_per_frame info =
      2 ^ sample_rate_index_to_frame_sample_power.getD (sample_rate_index info) 0 ∧
    frame_per_superframe info = 2 ^ superframe_index info ∧
    0 < samples_per_superframe info := by
  have hsps := spec_sps_bounds info
  have hstart32 : start_sample < 2 ^ 32 := by omega
  refine ⟨?_, ?_, ?_, ?_, ?_, ?_, ?_, ?_⟩
  · unfold get_buffer_parameter spec_skip_info
    simp only [SkipBufferInfo.mk.injEq]
    refine ⟨?_, ?_, ?_, ?_, ?_⟩
    · rw [num_superframe_eq _ _ _ h1, bytes_per_superframe_eq]
      exact mul32_eq h2
    · rw [frame_per_superframe_eq]
      have hpos := (spec_fps_bounds info).1
      by_cases hfps : spec_frames_per_superframe info = 1
      · simp [hfps]
      · have hgt : 1 < spec_frames_per_superframe info := by omega
        simp [hfps, hgt]
    · rw [start_superframe_eq, bytes_per_superframe_eq]
      exact mul32_eq h3
    · rw [start_superframe_eq, samples_per_superframe_eq]
      exact start_skip_eq start_sample info hstart32
    · rw [start_superframe_eq, num_superframe_eq _ _ _ h1, samples_per_superframe_eq]
      exact (end_skip_eq start_sample num_samples info h1).1
  · exact sample_rate_index_eq info
  · exact block_rate_index_eq info
  · rw [frame_bytes_eq]; rfl
  · exact superframe_index_eq info
  · rw [samples_per_frame_eq, sample_rate_index_eq]; rfl
  · rw [frame_per_superframe_eq, superframe_index_eq]; rfl
  · rw [samples_per_superframe_eq]; exact hsps.1

/-- Witness for C6 at a concrete in-range input. -/
theorem claim_C6_witness :
    (100 : Nat) + 200 + spec_samples_per_superframe 0 ≤ 2 ^ 32 ∧
    spec_num_superframe 100 200 0 * spec_bytes_per_superframe 0 < 2 ^ 32 ∧
    spec_start_superframe 100 0 * spec_bytes_per_superframe 0 < 2 ^ 32 ∧
    get_buffer_parameter 100 200 0 = spec_skip_info 100 200 0 :=
  ⟨by decide, by decide, by decide,
    (claim_C6 100 200 0 (by decide) (by decide) (by decide)).1⟩

/-- Claim C10 is false as stated: at start = 0, num = 2^32 − 1 and format
word 0 (samplesPerSuperframe = 64 > 0), the uint32 ceiling computation wraps,
`num_superframe` becomes 0, the `end_skip` subtraction underflows to 1, and
the accounting identity fails (4294967296 ≠ 0 superframes × 64 samples). -/
theorem claim_C10_counterexample :
    0 < samples_per_superframe 0 ∧
    (get_buffer_parameter 0 4294967295 0).start_skip + 4294967295 +
        (get_buffer_parameter 0 4294967295 0).end_skip = 4294967296 ∧
    num_superframe 0 4294967295 0 * samples_per_superframe 0 = 0 ∧
    (4294967296 : Nat) ≠ 0 := by
  refine ⟨by decide, rfl, rfl, by decide⟩

/-- Claim C10 (amended): the exact accounting identity
`start_skip + num_samples + end_skip = num_superframe × samples_per_superframe`
with `start_skip < samples_per_superframe` and no underflow in `end_skip`
holds whenever the ceiling numerator
`start_sample + num_samples + samples_per_superframe` stays within uint32
(the format word itself always yields `samplesPerSuperframe > 0`). -/
theorem claim_C10 (start_sample num_samples info : Nat)
    (h1 : start_sample + num_samples + spec_samples_per_superframe info ≤ 2 ^ 32) :
    (get_buffer_parameter start_sample num_samples info).start_skip + num_samples +
        (get_buffer_parameter start_sample num_samples info).end_skip =
      num_superframe start_sample num_samples info * samples_per_superframe info ∧
    (get_buffer_parameter start_sample num_samples info).start_skip <
      samples_per_superframe info ∧
    start_sample + num_samples ≤
      (start_superframe start_sample info + num_superframe start_sample num_samples info) *
        samples_per_superframe info := by
  have hsps := spec_sps_bounds info
  have hstart32 : start_sample < 2 ^ 32 := by omega
  have hss : (get_buffer_parameter start_sample num_samples info).start_skip =
      start_sample -
        spec_start_superframe start_sample info * spec_samples_per_superframe info := by
    simp only [get_buffer_parameter]
    rw [start_superframe_eq, samples_per_superframe_eq]
    exact start_skip_eq start_sample info hstart32
  have hes : (get_buffer_parameter start_sample num_samples info).end_skip =
      (spec_start_superframe start_sample info +
          spec_num_superframe start_sample num_samples info) *
        spec_samples_per_superframe info - (start_sample + num_samples) := by
    simp only [get_buffer_parameter]
    rw [start_superframe_eq, num_superframe_eq _ _ _ h1, samples_per_superframe_eq]
    exact (end_skip_eq start_sample num_samples info h1).1
  have hker := (end_skip_eq start_sample num_samples info h1).2
  refine ⟨?_, ?_, ?_⟩
  · rw [hss, hes, num_superframe_eq _ _ _ h1, samples_per_superframe_eq]
    have hfloor : spec_start_superframe start_sample info * spec_samples_per_superframe info ≤
        start_sample := Nat.div_mul_le_self _ _
    have hmul : (spec_start_superframe start_sample info +
          spec_num_superframe start_sample num_samples info) *
          spec_samples_per_superframe info =
        spec_start_superframe start_sample info * spec_samples_per_superframe info +
          spec_num_superframe start_sample num_samples info *
            spec_samples_per_superframe info := by ring
    omega
  · rw [hss, samples_per_superframe_eq]
    exact start_skip_lt start_sample info
  · rw [start_superframe_eq, num_superframe_eq _ _ _ h1, samples_per_superframe_eq]
    exact hker

/-- Witness for the amended C10 at a concrete in-range input. -/
theorem claim_C10_witness :
    (100 : Nat) + 200 + spec_samples_per_superframe 0 ≤ 2 ^ 32 ∧
    (get_buffer_parameter 100 200 0).start_skip + 200 +
        (get_buffer_parameter 100 200 0).end_skip =
      num_superframe 100 200 0 * samples_per_superframe 0 :=
  ⟨by decide, (claim_C10 100 200 0 (by decide)).1⟩

/-! Claim C8: the empty-buffer walk is bounded by 4 hops and its failure
means the step declares end of data. -/

/-- One hop of the buffer chain. -/
def chainHop (p : Parameters) (c : Int) : Int := (p.bp c).next_buffer_index

/-- The walk result is reached by at most `fuel` hops along the chain. -/
lemma skipWalk_iterate (p : Parameters) :
    ∀ fuel c, ∃ k ≤ fuel, skipWalk p fuel c = (chainHop p)^[k] c := by
  intro fuel
  induction fuel with
  | zero => intro c; exact ⟨0, le_rfl, rfl⟩
  | succ n ih =>
    intro c
    by_cases h : c ≠ -1 ∧ (p.bp c).bytes_count = 0
    · obtain ⟨k, hk, hw⟩ := ih ((p.bp c).next_buffer_index)
      refine ⟨k + 1, by omega, ?_⟩
      rw [Function.iterate_succ_apply]
      simpa [skipWalk, h, chainHop] using hw
    · exact ⟨0, by omega, by simp [skipWalk, h]⟩

/-- The returned state of the transition branch is the advanced state,
whatever the walk decides. -/
lemma bufferTransition_state (p : Parameters) (s : State) :
    (bufferTransition p s).state = (transitionAdvance p s).1 := by
  simp only [bufferTransition]
  split_ifs <;> rfl

/-- Claim C8: when the transition lands on an empty non-terminal buffer, the
walk from it advances along `next_buffer_index` for at most 4 hops, and the
step declares end of data (returns false) precisely when the walk ends on a
terminal index or a still-empty buffer. -/
theorem claim_C8 (p : Parameters) (s : State)
    (hcur : (bufferTransition p s).state.current_buffer ≠ -1)
    (hempty : (p.bp (bufferTransition p s).state.current_buffer).bytes_count = 0) :
    (∃ k ≤ 4, skipWalk p 4 (bufferTransition p s).state.current_buffer =
      (chainHop p)^[k] (bufferTransition p s).state.current_buffer) ∧
    ((bufferTransition p s).cont = false ↔
      (skipWalk p 4 (bufferTransition p s).state.current_buffer = -1 ∨
        (p.bp (skipWalk p 4 (bufferTransition p s).state.current_buffer)).bytes_count = 0)) := by
  rw [bufferTransition_state] at hcur hempty ⊢
  refine ⟨skipWalk_iterate p 4 _, ?_⟩
  simp only [bufferTransition]
  rw [if_neg hcur, if_pos hempty]
  by_cases hw : skipWalk p 4 (transitionAdvance p s).1.current_buffer = -1 ∨
      (p.bp (skipWalk p 4 (transitionAdvance p s).1.current_buffer)).bytes_count = 0
  · rw [if_pos hw]
    simpa using hw
  · rw [if_neg hw]
    simpa using hw

/-- Buffer chain for the walk scenario: slot 0 holds 16 bytes and advances to
slot 1, which is empty and chains to the terminal index. -/
def walkScenarioParams : Parameters :=
  { bp0 := { buffer_address := 7, bytes_count := 16, loop_count := 0, next_buffer_index := 1 }
    bp1 := { buffer_address := 8, bytes_count := 0, loop_count := 0, next_buffer_index := -1 } }

/-- Witness for C8: slot 0 exhausts and advances to slot 1, which is empty
and chains to the terminal index, so the walk fails within the bound and the
step reports end of data. -/
theorem claim_C8_witness :
    ((bufferTransition walkScenarioParams
        { current_buffer := 0, current_loop_count := 0,
          current_byte_position_in_buffer := 16 }).state.current_buffer ≠ -1 ∧
      (walkScenarioParams.bp (bufferTransition walkScenarioParams
        { current_buffer := 0, current_loop_count := 0,
          current_byte_position_in_buffer := 16 }).state.current_buffer).bytes_count = 0) ∧
    ((bufferTransition walkScenarioParams
        { current_buffer := 0, current_loop_count := 0,
          current_byte_position_in_buffer := 16 }).cont = false ↔
      (skipWalk walkScenarioParams 4 (bufferTransition walkScenarioParams
          { current_buffer := 0, current_loop_count := 0,
            current_byte_position_in_buffer := 16 }).state.current_buffer = -1 ∨
        (walkScenarioParams.bp (skipWalk walkScenarioParams 4
          (bufferTransition walkScenarioParams
            { current_buffer := 0, current_loop_count := 0,
              current_byte_position_in_buffer := 16 }).state.current_buffer)).bytes_count = 0)) :=
  ⟨⟨by decide, by decide⟩,
    (claim_C8 walkScenarioParams
      { current_buffer := 0, current_loop_count := 0, current_byte_position_in_buffer := 16 }
      (by decide) (by decide)).2⟩

/-! Machinery for the backlog-accounting invariant (claims C5 and C7). -/

lemma toInt32_lt {n g : Nat} (hn : n < 2 ^ 31) (h : toInt32 n < (g : Int)) : n < g := by
  unfold toInt32 at h
  rw [if_pos (show n % 2 ^ 32 < 2 ^ 31 by omega)] at h
  omega

lemma toInt32_ge {n g : Nat} (hn : n < 2 ^ 31) (h : ¬toInt32 n < (g : Int)) : g ≤ n := by
  unfold toInt32 at h
  rw [if_pos (show n % 2 ^ 32 < 2 ^ 31 by omega)] at h
  omega

/-- Every slot of a well-behaved parameter block has benign discards. -/
lemma goodBuf_bp {p : Parameters} {dec : DecoderInfo} (hG : GoodParams p dec) (i : Int) :
    GoodBuf (p.bp i) dec.samples_per_superframe := by
  obtain ⟨-, -, h3, h4, h5, h6⟩ := hG
  unfold Parameters.bp
  split_ifs
  · exact h3
  · exact h4
  · exact h5
  · exact h6
  · exact Nat.zero_le _

/-- With benign discards the trimmed decoded size never exceeds one
superframe. -/
lemma decodedSize_le {bufparam : BufferParameters} {dec : DecoderInfo}
    (hb : GoodBuf bufparam dec.samples_per_superframe)
    (hsps : dec.samples_per_superframe ≤ 2 ^ 30) (byte_pos fbg : Nat) :
    (computeDecodedSize bufparam dec byte_pos fbg).1 ≤ dec.samples_per_superframe :=
  decodedSize_le_of_fit bufparam dec byte_pos fbg (by omega) hb

/-- The trimmed decoded size the decode branch computes at state `s`. -/
def decodedSizeAt (p : Parameters) (dec : DecoderInfo) (s : State) : Nat :=
  (computeDecodedSize (p.bp s.current_buffer) dec s.current_byte_position_in_buffer
    ((p.bp s.current_buffer).bytes_count - s.current_byte_position_in_buffer)).1

lemma decodedSizeAt_le {p : Parameters} {dec : DecoderInfo} (hG : GoodParams p dec)
    (s : State) : decodedSizeAt p dec s ≤ dec.samples_per_superframe :=
  decodedSize_le (goodBuf_bp hG s.current_buffer) hG.2.1 _ _

/-- The invariant only depends on the backlog, the cursor and the pending
count. -/
lemma Inv_of_fields {g : Nat} {s t : State} (h : Inv g s)
    (he : t.extra_storage = s.extra_storage)
    (hp : t.decoded_samples_pending = s.decoded_samples_pending)
    (hd : t.decoded_passed = s.decoded_passed) : Inv g t := by
  unfold Inv at h ⊢
  rw [he, hp, hd]
  exact h

lemma storage_length_le {g : Nat} {s : State} (h : Inv g s) (hp : s.decoded_passed = 0) :
    s.extra_storage.length ≤ max s.decoded_samples_pending g := by
  obtain ⟨⟨pad, hshape, hbound⟩, -⟩ := h
  rw [hshape]
  simp only [List.length_append, List.length_replicate]
  omega

/-- Effect of the entry compaction on a well-formed state. -/
lemma compact_spec {g : Nat} {s : State} (h : Inv g s) :
    Inv g (compactStorage s) ∧ (compactStorage s).decoded_passed = 0 ∧
    (compactStorage s).decoded_samples_pending = s.decoded_samples_pending ∧
    (compactStorage s).current_buffer = s.current_buffer ∧
    (compactStorage s).current_byte_position_in_buffer =
      s.current_byte_position_in_buffer := by
  obtain ⟨⟨pad, hshape, hbound⟩, hlt⟩ := h
  by_cases hemp : s.extra_storage = []
  · have hlen : s.decoded_passed + s.decoded_samples_pending + pad = 0 := by
      rw [hshape] at hemp
      have := congrArg List.length hemp
      simpa using this
    simp only [compactStorage, if_pos hemp]
    refine ⟨⟨⟨pad, hshape, hbound⟩, hlt⟩, by omega, ?_, ?_, ?_⟩ <;> trivial
  · simp only [compactStorage, if_neg hemp]
    refine ⟨⟨⟨pad, ?_, ?_⟩, hlt⟩, ?_, ?_, ?_, ?_⟩ <;> try trivial
    · dsimp only
      rw [hshape, List.replicate_add, List.append_assoc,
        List.drop_left' (List.length_replicate _ _)]
      simp
    · dsimp only
      omega

/-- The transition branch never touches the backlog, the counters or the
pending count. -/
lemma bufferTransition_fields (p : Parameters) (s : State) :
    (bufferTransition p s).state.extra_storage = s.extra_storage ∧
    (bufferTransition p s).state.decoded_samples_pending = s.decoded_samples_pending ∧
    (bufferTransition p s).state.decoded_passed = s.decoded_passed := by
  rw [bufferTransition_state]
  simp only [transitionAdvance]
  split_ifs <;> simp

/-- atrac9.cpp lines 150-156: the short-buffer bail-out leaves the state
untouched. -/
lemma decodeSuperframe_short (p : Parameters) (dec : DecoderInfo) (sends : Nat → Bool)
    (s : State)
    (h : (p.bp s.current_buffer).bytes_count - s.current_byte_position_in_buffer <
      dec.superframe_size) :
    decodeSuperframe p dec sends s = ⟨s, [], false, false⟩ := by
  unfold decodeSuperframe
  rw [if_pos h]

/-- The decode branch: effect on the backlog-accounting fields. -/
lemma decodeSuperframe_decode (p : Parameters) (dec : DecoderInfo) (sends : Nat → Bool)
    (s : State)
    (h : ¬((p.bp s.current_buffer).bytes_count - s.current_byte_position_in_buffer <
      dec.superframe_size)) :
    (decodeSuperframe p dec sends s).cont = true ∧
    (decodeSuperframe p dec sends s).state.extra_storage =
      resizeTo s.extra_storage s.decoded_samples_pending ++
        List.replicate (decodedSizeAt p dec s) true ∧
    (decodeSuperframe p dec sends s).state.decoded_samples_pending =
      s.decoded_samples_pending + decodedSizeAt p dec s ∧
    (decodeSuperframe p dec sends s).state.decoded_passed = s.decoded_passed := by
  unfold decodeSuperframe decodedSizeAt
  rw [if_neg h]
  exact ⟨rfl, rfl, rfl, rfl⟩

/-- Resizing a well-shaped backlog down to its decoded-frame count keeps
exactly those frames. -/
lemma resizeTo_of_shape {l : List Bool} {d pad : Nat}
    (h : l = List.replicate d true ++ List.replicate pad false) :
    resizeTo l d = List.replicate d true := by
  subst h
  unfold resizeTo
  rw [List.take_left' (List.length_replicate _ _)]
  have hz : d - (List.replicate d true ++ List.replicate pad false).length = 0 := by
    simp only [List.length_append, List.length_replicate]
    omega
  rw [hz]
  simp

/-- Invariant preservation through the decode branch. -/
lemma decode_branch_inv {g : Nat} {p : Parameters} {dec : DecoderInfo} (sends : Nat → Bool)
    {s : State} (hG : GoodParams p dec) (hg : g ≤ 2 ^ 30) (hInv : Inv g s)
    (hp0 : s.decoded_passed = 0) (hlt : s.decoded_samples_pending < g)
    (h : ¬((p.bp s.current_buffer).bytes_count - s.current_byte_position_in_buffer <
      dec.superframe_size)) :
    Inv g (decodeSuperframe p dec sends s).state := by
  obtain ⟨⟨pad, hshape, hbound⟩, hpend31⟩ := hInv
  obtain ⟨-, hstor, hpend, hpass⟩ := decodeSuperframe_decode p dec sends s h
  have hd_le := decodedSizeAt_le hG s
  have hshape0 : s.extra_storage =
      List.replicate s.decoded_samples_pending true ++ List.replicate pad false := by
    rw [hshape, hp0, Nat.zero_add]
  refine ⟨⟨0, ?_, ?_⟩, ?_⟩
  · rw [hstor, hpend, hpass, hp0, resizeTo_of_shape hshape0, Nat.zero_add,
      ← List.replicate_add]
    simp
  · rw [hpend, hpass, hp0]
    omega
  · rw [hpend]
    have hsps30 := hG.2.1
    omega

/-- Invariant preservation and exhaustion bound for one `decode_more_data`
call made under the decode-loop condition. -/
lemma decode_more_data_inv {g : Nat} {p : Parameters} {dec : DecoderInfo}
    (sends : Nat → Bool) {s : State} (hG : GoodParams p dec) (hg : g ≤ 2 ^ 30)
    (hInv : Inv g s) (hpend : toInt32 s.decoded_samples_pending < (g : Int)) :
    Inv g (decode_more_data p dec sends s).state ∧
    ((decode_more_data p dec sends s).cont = false →
      (decode_more_data p dec sends s).state.extra_storage.length ≤ g) := by
  obtain ⟨hInv1, hp0, hpeq, hbeq, hposeq⟩ := compact_spec (g := g) hInv
  have hlt : s.decoded_samples_pending < g := toInt32_lt hInv.2 hpend
  have hlt1 : (compactStorage s).decoded_samples_pending < g := by rw [hpeq]; exact hlt
  have hlen1 : (compactStorage s).extra_storage.length ≤ g := by
    calc (compactStorage s).extra_storage.length ≤
        max (compactStorage s).decoded_samples_pending g := storage_length_le hInv1 hp0
    _ ≤ g := by omega
  unfold decode_more_data
  by_cases hq : (compactStorage s).current_byte_position_in_buffer ≥
      (p.bp s.current_buffer).bytes_count
  · rw [if_pos hq]
    have hfields := bufferTransition_fields p (compactStorage s)
    constructor
    · exact Inv_of_fields hInv1 hfields.1 hfields.2.1 hfields.2.2
    · intro _
      rw [hfields.1]
      exact hlen1
  · rw [if_neg hq]
    by_cases hshort : (p.bp (compactStorage s).current_buffer).bytes_count -
        (compactStorage s).current_byte_position_in_buffer < dec.superframe_size
    · rw [decodeSuperframe_short p dec sends _ hshort]
      exact ⟨hInv1, fun _ => hlen1⟩
    · constructor
      · exact decode_branch_inv sends hG hg hInv1 hp0 hlt1 hshort
      · intro hfalse
        have hc := (decodeSuperframe_decode p dec sends _ hshort).1
        rw [hc] at hfalse
        exact absurd hfalse (by simp)

/-- Padding a backlog no longer than `granularity` yields exactly
`granularity` frames. -/
lemma fill_length {g : Nat} {l : List Bool} (h : l.length ≤ g) :
    (fill_to_fit_granularity g l).length = g := by
  unfold fill_to_fit_granularity
  simp only [List.length_append, List.length_replicate]
  omega

/-- Invariant preservation through the exhaustion padding and the key-on
counter reset. -/
lemma fill_inv {g : Nat} {s : State} (h : Inv g s) (hlen : s.extra_storage.length ≤ g) :
    Inv g { s with
      extra_storage := fill_to_fit_granularity g s.extra_storage
      samples_generated_since_key_on := 0
      bytes_consumed_since_key_on := 0 } := by
  obtain ⟨⟨pad, hshape, hbound⟩, hlt⟩ := h
  have hlen2 : s.extra_storage.length =
      s.decoded_passed + s.decoded_samples_pending + pad := by
    rw [hshape]
    simp only [List.length_append, List.length_replicate]
  refine ⟨⟨pad + (g - s.extra_storage.length), ?_, ?_⟩, hlt⟩
  · dsimp only
    unfold fill_to_fit_granularity
    rw [hshape, List.append_assoc, ← List.replicate_add]
  · dsimp only
    omega

/-- Invariant preservation through the publishing tail (requires at least
`granularity` pending samples, which the loop guard supplies). -/
lemma Inv_publish {g : Nat} {s : State} (h : Inv g s)
    (hge : g ≤ s.decoded_samples_pending) : Inv g (publishTick g s) := by
  obtain ⟨⟨pad, hshape, hbound⟩, hlt⟩ := h
  have hsum : (publishTick g s).decoded_passed + (publishTick g s).decoded_samples_pending =
      s.decoded_passed + s.decoded_samples_pending := by
    simp only [publishTick]
    rw [if_neg (by omega)]
    omega
  refine ⟨⟨pad, ?_, ?_⟩, ?_⟩
  · rw [hsum]
    exact hshape
  · rw [hsum]
    exact hbound
  · simp only [publishTick]
    rw [if_neg (by omega)]
    omega

/-- Master lemma for one `process` loop: the invariant is preserved, a
`finished` outcome publishes exactly `granularity` frames with the
since-key-on counters reset, and a `continued` outcome publishes exactly
`granularity` frames sliced at the consumption cursor of a state with at
least `granularity` pending samples. -/
lemma processLoop_inv {p : Parameters} {dec : DecoderInfo} (sendsSeq : Nat → Nat → Bool)
    {g : Nat} (hG : GoodParams p dec) (hg : g ≤ 2 ^ 30) :
    ∀ fuel callIdx (s : State), Inv g s →
      Inv g (processLoop p dec sendsSeq g fuel callIdx s).state ∧
      (∀ pub, (processLoop p dec sendsSeq g fuel callIdx s).result =
          ProcessResult.finished pub →
        pub = g ∧
        (processLoop p dec sendsSeq g fuel callIdx s).state.samples_generated_since_key_on
          = 0 ∧
        (processLoop p dec sendsSeq g fuel callIdx s).state.bytes_consumed_since_key_on
          = 0) ∧
      (∀ st pub, (processLoop p dec sendsSeq g fuel callIdx s).result =
          ProcessResult.continued st pub →
        pub = g ∧ ∃ s₁, g ≤ s₁.decoded_samples_pending ∧
          (processLoop p dec sendsSeq g fuel callIdx s).state = publishTick g s₁ ∧
          st = s₁.decoded_passed) := by
  intro fuel
  induction fuel with
  | zero =>
    intro callIdx s hInv
    refine ⟨hInv, ?_, ?_⟩
    · intro pub hpub
      simp [processLoop] at hpub
    · intro st pub hpub
      simp [processLoop] at hpub
  | succ n ih =>
    intro callIdx s hInv
    by_cases hcond : toInt32 s.decoded_samples_pending < (g : Int)
    · have hd := decode_more_data_inv (sendsSeq callIdx) hG hg hInv hcond
      by_cases hcont : (decode_more_data p dec (sendsSeq callIdx) s).cont = true
      · have hstate : (processLoop p dec sendsSeq g (n + 1) callIdx s).state =
            (processLoop p dec sendsSeq g n (callIdx + 1)
              (decode_more_data p dec (sendsSeq callIdx) s).state).state := by
          simp only [processLoop]
          rw [if_pos hcond, if_pos hcont]
        have hresult : (processLoop p dec sendsSeq g (n + 1) callIdx s).result =
            (processLoop p dec sendsSeq g n (callIdx + 1)
              (decode_more_data p dec (sendsSeq callIdx) s).state).result := by
          simp only [processLoop]
          rw [if_pos hcond, if_pos hcont]
        have hrec := ih (callIdx + 1) (decode_more_data p dec (sendsSeq callIdx) s).state hd.1
        refine ⟨?_, ?_, ?_⟩
        · rw [hstate]
          exact hrec.1
        · intro pub hpub
          rw [hresult] at hpub
          obtain ⟨h1, h2, h3⟩ := hrec.2.1 pub hpub
          rw [hstate]
          exact ⟨h1, h2, h3⟩
        · intro st pub hpub
          rw [hresult] at hpub
          obtain ⟨h1, s₁, h2, h3, h4⟩ := hrec.2.2 st pub hpub
          rw [hstate]
          exact ⟨h1, s₁, h2, h3, h4⟩
      · have hcontf : (decode_more_data p dec (sendsSeq callIdx) s).cont = false := by
          revert hcont
          cases (decode_more_data p dec (sendsSeq callIdx) s).cont <;> simp
        have hlen := hd.2 hcontf
        have hstate : (processLoop p dec sendsSeq g (n + 1) callIdx s).state =
            { (decode_more_data p dec (sendsSeq callIdx) s).state with
              extra_storage := fill_to_fit_granularity g
                (decode_more_data p dec (sendsSeq callIdx) s).state.extra_storage
              samples_generated_since_key_on := 0
              bytes_consumed_since_key_on := 0 } := by
          simp only [processLoop]
          rw [if_pos hcond, if_neg (by rw [hcontf]; simp)]
        have hresult : (processLoop p dec sendsSeq g (n + 1) callIdx s).result =
            ProcessResult.finished (fill_to_fit_granularity g
              (decode_more_data p dec (sendsSeq callIdx) s).state.extra_storage).length := by
          simp only [processLoop]
          rw [if_pos hcond, if_neg (by rw [hcontf]; simp)]
        refine ⟨?_, ?_, ?_⟩
        · rw [hstate]
          exact fill_inv hd.1 hlen
        · intro pub hpub
          rw [hresult] at hpub
          have hpub2 : pub = (fill_to_fit_granularity g
              (decode_more_data p dec (sendsSeq callIdx) s).state.extra_storage).length := by
            cases hpub
            rfl
          refine ⟨?_, ?_, ?_⟩
          · rw [hpub2, fill_length hlen]
          · rw [hstate]
          · rw [hstate]
        · intro st pub hpub
          rw [hresult] at hpub
          simp at hpub
    · have hge : g ≤ s.decoded_samples_pending := toInt32_ge hInv.2 hcond
      have hstate : (processLoop p dec sendsSeq g (n + 1) callIdx s).state =
          publishTick g s := by
        simp only [processLoop]
        rw [if_neg hcond]
      have hresult : (processLoop p dec sendsSeq g (n + 1) callIdx s).result =
          ProcessResult.continued s.decoded_passed g := by
        simp only [processLoop]
        rw [if_neg hcond]
      refine ⟨?_, ?_, ?_⟩
      · rw [hstate]
        exact Inv_publish hInv hge
      · intro pub hpub
        rw [hresult] at hpub
        simp at hpub
      · intro st pub hpub
        rw [hresult] at hpub
        have hst : st = s.decoded_passed ∧ pub = g := by
          cases hpub
          exact ⟨rfl, rfl⟩
        refine ⟨hst.2, s, hge, hstate, hst.1⟩

/-- One full tick preserves the backlog invariant. -/
lemma process_inv {p : Parameters} {dec : DecoderInfo} (sendsSeq : Nat → Nat → Bool)
    {g : Nat} (hG : GoodParams p dec) (hg : g ≤ 2 ^ 30) (fuel : Nat) {s : State}
    (hInv : Inv g s) : Inv g (process p dec sendsSeq g fuel s).state := by
  unfold process
  split_ifs with h
  · exact hInv
  · exact (processLoop_inv sendsSeq hG hg fuel 0 s hInv).1

/-- Claim C5: every tick that publishes output publishes exactly
`granularity` sample frames.  On exhaustion (`finished`) the padded backlog
published has exactly `granularity` frames and the since-key-on counters are
reset; on a normal publish (`continued`) the slice starts at the consumption
cursor of a pre-publish state holding at least `granularity` pending samples,
exactly `granularity` frames are published, and the pending count is
decremented by the consumed amount floored at zero (`publishTick`). -/
theorem claim_C5 (p : Parameters) (dec : DecoderInfo) (sendsSeq : Nat → Nat → Bool)
    (g fuel : Nat) (s : State) (hG : GoodParams p dec) (hg : g ≤ 2 ^ 30)
    (hInv : Inv g s) :
    (∀ pub, (process p dec sendsSeq g fuel s).result = ProcessResult.finished pub →
      pub = g ∧
      (process p dec sendsSeq g fuel s).state.samples_generated_since_key_on = 0 ∧
      (process p dec sendsSeq g fuel s).state.bytes_consumed_since_key_on = 0) ∧
    (∀ st pub, (process p dec sendsSeq g fuel s).result = ProcessResult.continued st pub →
      pub = g ∧ ∃ s₁, g ≤ s₁.decoded_samples_pending ∧
        (process p dec sendsSeq g fuel s).state = publishTick g s₁ ∧
        st = s₁.decoded_passed) := by
  unfold process
  split_ifs with h
  · constructor
    · intro pub hpub
      simp at hpub
    · intro st pub hpub
      simp at hpub
  · have hl := processLoop_inv sendsSeq hG hg fuel 0 s hInv
    exact ⟨hl.2.1, hl.2.2⟩

/-- Witness for C5: one decoded superframe of 8 samples, granularity 4; the
tick publishes exactly 4 frames at cursor 0. -/
theorem claim_C5_witness :
    GoodParams errParams scenarioDec ∧ (4 : Nat) ≤ 2 ^ 30 ∧ Inv 4 {} ∧
    (∀ st pub,
      (process errParams scenarioDec (fun _ _ => true) 4 3 {}).result =
        ProcessResult.continued st pub →
      pub = 4 ∧ ∃ s₁, 4 ≤ s₁.decoded_samples_pending ∧
        (process errParams scenarioDec (fun _ _ => true) 4 3 {}).state = publishTick 4 s₁ ∧
        st = s₁.decoded_passed) :=
  ⟨by unfold GoodParams GoodBuf; decide, by decide, ⟨⟨0, rfl, by decide⟩, by decide⟩,
    (claim_C5 errParams scenarioDec (fun _ _ => true) 4 3 {}
      (by unfold GoodParams GoodBuf; decide) (by decide)
      ⟨⟨0, rfl, by decide⟩, by decide⟩).2⟩

/-- On a well-formed state the decode-produced frame count of the backlog is
the cursor-passed plus pending total. -/
lemma decodedFrames_of_inv {g : Nat} {s : State} (h : Inv g s) :
    decodedFrames s.extra_storage = s.decoded_passed + s.decoded_samples_pending := by
  obtain ⟨⟨pad, hshape, -⟩, -⟩ := h
  rw [hshape]
  unfold decodedFrames
  simp [List.countP_append, List.countP_replicate]

/-- Claim C7: after any sequence of ticks from a well-formed state, the
number of decode-produced sample frames held in the backlog equals
`decoded_passed + decoded_samples_pending` (consumed-since-compaction plus
pending). -/
theorem claim_C7 (p : Parameters) (dec : DecoderInfo) (g : Nat)
    (ticks : List ((Nat → Nat → Bool) × Nat)) (s : State)
    (hG : GoodParams p dec) (hg : g ≤ 2 ^ 30) (hInv : Inv g s) :
    decodedFrames (runTicks p dec g ticks s).extra_storage =
      (runTicks p dec g ticks s).decoded_passed +
        (runTicks p dec g ticks s).decoded_samples_pending := by
  induction ticks generalizing s with
  | nil => exact decodedFrames_of_inv hInv
  | cons t rest ih =>
    simp only [runTicks]
    exact ih _ (process_inv t.1 hG hg t.2 hInv)

/-- Buffer chain with a leading discard: slot 0 trims 2 encoder-delay
samples at its start (2 + 0 discards fit in one 8-sample superframe). -/
def discParams : Parameters :=
  { bp0 := { buffer_address := 5, bytes_count := 8, samples_discard_start_off := 2 } }

/-- Witness for C7 over a two-tick run of a voice with a leading discard. -/
theorem claim_C7_witness :
    GoodParams discParams scenarioDec ∧ (4 : Nat) ≤ 2 ^ 30 ∧ Inv 4 {} ∧
    decodedFrames (runTicks discParams scenarioDec 4
        [(fun _ _ => true, 3), (fun _ _ => true, 3)] {}).extra_storage =
      (runTicks discParams scenarioDec 4
          [(fun _ _ => true, 3), (fun _ _ => true, 3)] {}).decoded_passed +
        (runTicks discParams scenarioDec 4
            [(fun _ _ => true, 3), (fun _ _ => true, 3)] {}).decoded_samples_pending :=
  ⟨by unfold GoodParams GoodBuf; decide, by decide, ⟨⟨0, rfl, by decide⟩, by decide⟩,
    claim_C7 discParams scenarioDec 4 [(fun _ _ => true, 3), (fun _ _ => true, 3)] {}
      (by unfold GoodParams GoodBuf; decide) (by decide) ⟨⟨0, rfl, by decide⟩, by decide⟩⟩

end Atrac9
